import Mathlib

/-!
Verification development for the nutrition-bot aggregation core.

Shallow embedding of the repository's data model and operations:
  * `src/shared/models.py` / `src/shared/new_models.py` — analysis record shapes;
  * `src/adapters/database.py` (SQLite adapter) — `_extract_food_data`,
    `save_food_entry`, `_update_daily_stats`, `get_daily_stats`,
    `get_weekly_stats`;
  * `src/adapters/postgres_database.py` (PostgreSQL adapter) — the same
    operations in their PostgreSQL variants;
  * `src/services/daily_reporter.py` — `_build_report_prompt` threshold logic.

Python floats (and SQL REAL columns) are modelled as rationals `ℚ`;
database tables are modelled as lists of rows; the ambient clock
(`date.today()`, `CURRENT_TIMESTAMP`) is passed as an explicit argument.
-/

/-- The canonical per-entry nutrient record produced by
`DatabaseAdapter._extract_food_data` (src/adapters/database.py:192-229):
five macro totals and five tracked category weights. -/
structure FoodData where
  calories : ℚ
  protein : ℚ
  carbs : ℚ
  fat : ℚ
  fiber : ℚ
  berries : ℚ
  red_meat : ℚ
  seafood : ℚ
  nuts : ℚ
  vegetables : ℚ
deriving DecidableEq, Repr

/-- The all-zero canonical record. -/
def zeroFood : FoodData := ⟨0, 0, 0, 0, 0, 0, 0, 0, 0, 0⟩

/-- Field-wise addition of two canonical records. -/
def addFood (a b : FoodData) : FoodData :=
  ⟨a.calories + b.calories, a.protein + b.protein, a.carbs + b.carbs,
   a.fat + b.fat, a.fiber + b.fiber, a.berries + b.berries,
   a.red_meat + b.red_meat, a.seafood + b.seafood, a.nuts + b.nuts,
   a.vegetables + b.vegetables⟩

/-- Field-wise sum of a list of canonical records (models SQL `SUM` taken
column by column over a set of rows). -/
def sumFood (l : List FoodData) : FoodData := l.foldr addFood zeroFood

/-- Source `shared/new_models.py:24-36` — `NutrientTotals`: the `totals` record of
the professional analysis shape.  `kcal` is an integer field; every field
carries a pydantic `ge=0` bound, captured by `NutrientTotals.Valid` below. -/
structure NutrientTotals where
  kcal : ℤ
  protein_g : ℚ
  fat_g : ℚ
  carb_g : ℚ
  fiber_g : ℚ
  sugar_g : ℚ
  calcium_mg : ℚ
  iron_mg : ℚ
  vitaminA_mcg : ℚ
  omega3_g : ℚ
  cholesterol_mg : ℚ
deriving DecidableEq, Repr

/-- The pydantic `ge=0` validation bounds on `NutrientTotals`. -/
def NutrientTotals.Valid (t : NutrientTotals) : Prop :=
  0 ≤ t.kcal ∧ 0 ≤ t.protein_g ∧ 0 ≤ t.fat_g ∧ 0 ≤ t.carb_g ∧
  0 ≤ t.fiber_g ∧ 0 ≤ t.sugar_g ∧ 0 ≤ t.calcium_mg ∧ 0 ≤ t.iron_mg ∧
  0 ≤ t.vitaminA_mcg ∧ 0 ≤ t.omega3_g ∧ 0 ≤ t.cholesterol_mg

instance (t : NutrientTotals) : Decidable t.Valid := by
  unfold NutrientTotals.Valid; infer_instance

/-- Source `shared/new_models.py:52-57` — `ProfessionalFoodAnalysis`.  The
normalizer only reads `totals`; the `items` list and `percent_of_daily`
record are never consulted by `_extract_food_data`, so they are omitted
from the embedding. -/
structure ProfessionalFoodAnalysis where
  meal_id : String
  totals : NutrientTotals
deriving DecidableEq, Repr

/-- An object that does not carry a `totals` attribute, read through
`getattr(analysis, field, 0)` in the legacy branch of
`_extract_food_data` (src/adapters/database.py:216-229).  `none` models an
absent attribute, for which `getattr` substitutes `0`. -/
structure DynLegacy where
  total_calories : Option ℚ
  total_protein : Option ℚ
  total_carbs : Option ℚ
  total_fat : Option ℚ
  total_fiber : Option ℚ
  berries_grams : Option ℚ
  red_meat_grams : Option ℚ
  seafood_grams : Option ℚ
  nuts_grams : Option ℚ
  vegetables_grams : Option ℚ
deriving DecidableEq, Repr

/-- The totals-free object with every attribute absent: an input whose
shape is neither the legacy flat record nor the professional record. -/
def emptyDyn : DynLegacy :=
  ⟨none, none, none, none, none, none, none, none, none, none⟩

/-- Source `shared/models.py:32-53` — `FoodAnalysisResult`, the legacy flat
analysis shape.  All fields are required floats; the pydantic model
imposes no non-negativity bound on any of them. -/
structure FoodAnalysisResult where
  confidence : ℚ
  total_calories : ℚ
  total_protein : ℚ
  total_carbs : ℚ
  total_fat : ℚ
  total_fiber : ℚ
  berries_grams : ℚ
  red_meat_grams : ℚ
  seafood_grams : ℚ
  nuts_grams : ℚ
  olive_oil_ml : ℚ
  vegetables_grams : ℚ
  whole_grains_grams : ℚ
  explanation : String
deriving DecidableEq, Repr

/-- View of a `FoodAnalysisResult` as a totals-free attribute bag: every
attribute the legacy branch of `_extract_food_data` reads is present. -/
def FoodAnalysisResult.toDyn (a : FoodAnalysisResult) : DynLegacy :=
  ⟨some a.total_calories, some a.total_protein, some a.total_carbs,
   some a.total_fat, some a.total_fiber, some a.berries_grams,
   some a.red_meat_grams, some a.seafood_grams, some a.nuts_grams,
   some a.vegetables_grams⟩

/-- The input of `_extract_food_data`, discriminated as the source does by
`hasattr(analysis, 'totals')`: either an object with a `totals` attribute
(the professional shape) or any object without one. -/
inductive AnalysisShape where
  | professional (p : ProfessionalFoodAnalysis)
  | flat (o : DynLegacy)
deriving DecidableEq, Repr

/-- Source `src/adapters/database.py:192-229` — `DatabaseAdapter._extract_food_data`.
With a `totals` attribute: map `totals.kcal/protein_g/carb_g/fat_g/fiber_g`
through `float(...)` and set the five category weights to `0.0` (TODO in
the source).  Without one: read each flat attribute via
`getattr(analysis, field, 0)` and `float(...)`. -/
def extract_food_data : AnalysisShape → FoodData
  | .professional p =>
      ⟨(p.totals.kcal : ℚ), p.totals.protein_g, p.totals.carb_g,
       p.totals.fat_g, p.totals.fiber_g, 0, 0, 0, 0, 0⟩
  | .flat o =>
      ⟨o.total_calories.getD 0, o.total_protein.getD 0, o.total_carbs.getD 0,
       o.total_fat.getD 0, o.total_fiber.getD 0, o.berries_grams.getD 0,
       o.red_meat_grams.getD 0, o.seafood_grams.getD 0, o.nuts_grams.getD 0,
       o.vegetables_grams.getD 0⟩

/-- A row of the `food_entries` table (src/adapters/database.py:36-62,
src/adapters/postgres_database.py:40-66): owning user, calendar date and
the ten nutrient columns.  Dates in the stores are modelled as day
indices `ℕ` (ISO text in SQLite and `DATE` in PostgreSQL both compare
chronologically); the auto-increment id, insertion timestamp and the
serialized `analysis_json` payload play no role in aggregation and are
omitted. -/
structure FoodEntry where
  user_id : ℤ
  date : ℕ
  vals : FoodData
deriving DecidableEq, Repr

/-- A row of the SQLite `daily_stats` table.  `vals = none` models the
row whose ten nutrient columns are SQL `NULL`: the SQLite adapter's
recompute inserts the raw `SUM(...)` results, which are all `NULL` when
no `food_entries` row matched (no `COALESCE` in the SQLite query,
src/adapters/database.py:235-261). -/
structure SQLiteStatsRow where
  user_id : ℤ
  date : ℕ
  vals : Option FoodData
  updated_at : ℕ
deriving DecidableEq, Repr

/-- State touched by the SQLite adapter's aggregation core: the
`food_entries` and `daily_stats` tables.  (`users` is irrelevant to the
claims and omitted.) -/
structure SQLiteDB where
  food_entries : List FoodEntry
  daily_stats : List SQLiteStatsRow
deriving DecidableEq, Repr

/-- A row of the PostgreSQL `daily_stats` table: the PostgreSQL recompute
wraps every `SUM` in `COALESCE(..., 0)`
(src/adapters/postgres_database.py:182-196), so nutrient columns are
always actual numbers. -/
structure PGStatsRow where
  user_id : ℤ
  date : ℕ
  vals : FoodData
  updated_at : ℕ
deriving DecidableEq, Repr

/-- State touched by the PostgreSQL adapter's aggregation core. -/
structure PGDB where
  food_entries : List FoodEntry
  daily_stats : List PGStatsRow
deriving DecidableEq, Repr

/-- The `WHERE user_id = ? AND date = ?` selection of `food_entries`
used by both adapters' `_update_daily_stats`. -/
def matchingEntries (entries : List FoodEntry) (u : ℤ) (d : ℕ) : List FoodEntry :=
  entries.filter (fun e => e.user_id == u && e.date == d)

/-- SQL `SUM` over the ten nutrient columns of a set of entry rows:
`NULL` (`none`) when the set is empty, otherwise the field-wise sum. -/
def sqlSumFood (l : List FoodEntry) : Option FoodData :=
  if l.isEmpty then none else some (sumFood (l.map (·.vals)))

/-- Models `INSERT OR REPLACE` / `INSERT ... ON CONFLICT (user_id, date) DO
UPDATE` into SQLite `daily_stats`: any row with the same (user_id, date)
key is replaced by the new row. -/
def sqliteUpsert (rows : List SQLiteStatsRow) (r : SQLiteStatsRow) : List SQLiteStatsRow :=
  rows.filter (fun s => !(s.user_id == r.user_id && s.date == r.date)) ++ [r]

/-- Same upsert for the PostgreSQL `daily_stats` table. -/
def pgUpsert (rows : List PGStatsRow) (r : PGStatsRow) : List PGStatsRow :=
  rows.filter (fun s => !(s.user_id == r.user_id && s.date == r.date)) ++ [r]

/-- Source `src/adapters/database.py:231-266` — `DatabaseAdapter._update_daily_stats`:
select the ten `SUM`s over entries with matching (user_id, date) (the
aggregate query always yields one row, `NULL`-valued when no entry
matches) and upsert them into `daily_stats`.  `now` models the
`CURRENT_TIMESTAMP` default refreshing `updated_at`. -/
def sqliteUpdateDailyStats (db : SQLiteDB) (u : ℤ) (d : ℕ) (now : ℕ) : SQLiteDB :=
  let r : SQLiteStatsRow := ⟨u, d, sqlSumFood (matchingEntries db.food_entries u d), now⟩
  { db with daily_stats := sqliteUpsert db.daily_stats r }

/-- Source `src/adapters/postgres_database.py:178-223` —
`PostgreSQLAdapter._update_daily_stats`: identical except every `SUM` is
wrapped in `COALESCE(..., 0)`, so an empty entry set stores zeros (and
`sumFood [] = zeroFood` covers that case uniformly). -/
def pgUpdateDailyStats (db : PGDB) (u : ℤ) (d : ℕ) (now : ℕ) : PGDB :=
  let r : PGStatsRow :=
    ⟨u, d, sumFood ((matchingEntries db.food_entries u d).map (·.vals)), now⟩
  { db with daily_stats := pgUpsert db.daily_stats r }

/-- Source `src/adapters/database.py:146-190` — `DatabaseAdapter.save_food_entry`
(success path): extract canonical data from the analysis, insert a
`food_entries` row dated `today` (`date.today()` at call time — the
method accepts no caller-supplied date), then update the day's stats. -/
def sqliteSaveFoodEntry (db : SQLiteDB) (u : ℤ) (a : AnalysisShape)
    (today : ℕ) (now : ℕ) : SQLiteDB :=
  sqliteUpdateDailyStats
    { db with food_entries := db.food_entries ++ [⟨u, today, extract_food_data a⟩] }
    u today now

/-- The ten nutrient columns the PostgreSQL `save_food_entry` reads
directly off the legacy `FoodAnalysisResult`
(src/adapters/postgres_database.py:159-164). -/
def legacyToFood (a : FoodAnalysisResult) : FoodData :=
  ⟨a.total_calories, a.total_protein, a.total_carbs, a.total_fat,
   a.total_fiber, a.berries_grams, a.red_meat_grams, a.seafood_grams,
   a.nuts_grams, a.vegetables_grams⟩

/-- Source `src/adapters/postgres_database.py:143-176` —
`PostgreSQLAdapter.save_food_entry` (success path): insert a
`food_entries` row dated `today` with the analysis' flat nutrient
attributes, then update the day's stats. -/
def pgSaveFoodEntry (db : PGDB) (u : ℤ) (a : FoodAnalysisResult)
    (today : ℕ) (now : ℕ) : PGDB :=
  pgUpdateDailyStats
    { db with food_entries := db.food_entries ++ [⟨u, today, legacyToFood a⟩] }
    u today now

/-- Source `src/adapters/database.py:268-303` — `DatabaseAdapter.get_daily_stats`:
look up the `daily_stats` row for (user_id, date); absent row → `None`.
A present row with `NULL` nutrient columns fails the
`DailyNutritionStats(**stats_dict)` pydantic validation, which the
`except` clause turns into `None` as well — hence the `Option.bind`. -/
def sqliteGetDailyStats (db : SQLiteDB) (u : ℤ) (d : ℕ) : Option FoodData :=
  (db.daily_stats.find? (fun s => s.user_id == u && s.date == d)).bind (·.vals)

/-- Source `src/adapters/postgres_database.py:225-251` —
`PostgreSQLAdapter.get_daily_stats`: look up the row, absent → `None`. -/
def pgGetDailyStats (db : PGDB) (u : ℤ) (d : ℕ) : Option FoodData :=
  (db.daily_stats.find? (fun s => s.user_id == u && s.date == d)).map (·.vals)

/-- The eight aggregates produced by both adapters' `get_weekly_stats`
(the range query sums calories, protein, fiber and the five category
weights; carbs and fat are not part of its result). -/
structure WeeklyStats where
  weekly_calories : ℚ
  weekly_protein : ℚ
  weekly_fiber : ℚ
  weekly_berries : ℚ
  weekly_red_meat : ℚ
  weekly_seafood : ℚ
  weekly_nuts : ℚ
  weekly_vegetables : ℚ
deriving DecidableEq, Repr

/-- Contribution of one SQLite `daily_stats` row to a `SUM` over a
nutrient column: SQL `SUM` skips `NULL` values. -/
def sqliteRowContrib (f : FoodData → ℚ) (r : SQLiteStatsRow) : ℚ :=
  (r.vals.map f).getD 0

/-- One column of the SQLite `get_weekly_stats` query
(src/adapters/database.py:323-335): `SUM` over `daily_stats` rows with
`user_id = u AND date >= start`; the adapter then replaces a `NULL` sum
by `0` (`{k: (v or 0) ...}`, line 344). -/
def sqliteWeeklyField (db : SQLiteDB) (u : ℤ) (start : ℕ) (f : FoodData → ℚ) : ℚ :=
  (((db.daily_stats.filter
      (fun s => s.user_id == u && decide (start ≤ s.date))).map
      (sqliteRowContrib f)).sum)

/-- Source `src/adapters/database.py:305-350` — `DatabaseAdapter.get_weekly_stats`
with an explicit `start_date` (the defaulted start date is the naive
date arithmetic modelled separately by `naiveWeeklyStart`). -/
def sqliteGetWeeklyStats (db : SQLiteDB) (u : ℤ) (start : ℕ) : WeeklyStats :=
  ⟨sqliteWeeklyField db u start (·.calories),
   sqliteWeeklyField db u start (·.protein),
   sqliteWeeklyField db u start (·.fiber),
   sqliteWeeklyField db u start (·.berries),
   sqliteWeeklyField db u start (·.red_meat),
   sqliteWeeklyField db u start (·.seafood),
   sqliteWeeklyField db u start (·.nuts),
   sqliteWeeklyField db u start (·.vegetables)⟩

/-- One column of the PostgreSQL `get_weekly_stats` query
(src/adapters/postgres_database.py:265-277): `COALESCE(SUM(...), 0)`
over rows with `user_id = u AND date >= start`. -/
def pgWeeklyField (db : PGDB) (u : ℤ) (start : ℕ) (f : FoodData → ℚ) : ℚ :=
  (((db.daily_stats.filter
      (fun s => s.user_id == u && decide (start ≤ s.date))).map
      (fun r => f r.vals)).sum)

/-- Source `src/adapters/postgres_database.py:253-288` —
`PostgreSQLAdapter.get_weekly_stats` with an explicit `start_date`. -/
def pgGetWeeklyStats (db : PGDB) (u : ℤ) (start : ℕ) : WeeklyStats :=
  ⟨pgWeeklyField db u start (·.calories),
   pgWeeklyField db u start (·.protein),
   pgWeeklyField db u start (·.fiber),
   pgWeeklyField db u start (·.berries),
   pgWeeklyField db u start (·.red_meat),
   pgWeeklyField db u start (·.seafood),
   pgWeeklyField db u start (·.nuts),
   pgWeeklyField db u start (·.vegetables)⟩

/-- A Python `datetime.date` value: a (year, month, day) triple.  The
constructor's validity check is `PyDate.Valid` below. -/
structure PyDate where
  year : ℤ
  month : ℕ
  day : ℕ
deriving DecidableEq, Repr

/-- Gregorian leap-year rule used by Python's `datetime`. -/
def isLeapYear (y : ℤ) : Bool :=
  (y % 4 == 0 && y % 100 != 0) || y % 400 == 0

/-- Length of month `m` of year `y` in the proleptic Gregorian calendar. -/
def daysInMonth (y : ℤ) (m : ℕ) : ℕ :=
  if m = 2 then (if isLeapYear y then 29 else 28)
  else if m = 4 ∨ m = 6 ∨ m = 9 ∨ m = 11 then 30
  else 31

/-- The range check performed by the `datetime.date` constructor (and by
`date.replace`): a triple outside these bounds raises `ValueError`. -/
def PyDate.Valid (d : PyDate) : Prop :=
  1 ≤ d.year ∧ d.year ≤ 9999 ∧ 1 ≤ d.month ∧ d.month ≤ 12 ∧
  1 ≤ d.day ∧ d.day ≤ daysInMonth d.year d.month

instance (d : PyDate) : Decidable d.Valid := by
  unfold PyDate.Valid; infer_instance

/-- The default 7-day lookback start date as both adapters compute it when
`get_weekly_stats` is called without `start_date`:
`today.replace(day=today.day-6)` (src/adapters/database.py:316-320) and
`date(today.year, today.month, today.day - 6)`
(src/adapters/postgres_database.py:256-259).  The day-of-month is
decremented by 6 with no month carry; `none` models the `ValueError`
raised by the date constructor when the resulting day is out of range. -/
def naiveWeeklyStart (t : PyDate) : Option PyDate :=
  let d : ℤ := (t.day : ℤ) - 6
  if 1 ≤ d ∧ d ≤ (daysInMonth t.year t.month : ℤ) then
    some ⟨t.year, t.month, d.toNat⟩
  else none

/-- Days in year `y` strictly before month `m`. -/
def daysBeforeMonth (y : ℤ) (m : ℕ) : ℕ :=
  ((List.range (m - 1)).map (fun i => daysInMonth y (i + 1))).sum

/-- Python's `date.toordinal`: day number in the proleptic Gregorian
calendar with 0001-01-01 as day 1.  Calendar-correct date subtraction
(the `timedelta` arithmetic the spec's DESIGN NOTES call for) is exactly
subtraction of ordinals. -/
def PyDate.toOrdinal (d : PyDate) : ℤ :=
  365 * (d.year - 1) + (d.year - 1) / 4 - (d.year - 1) / 100 +
    (d.year - 1) / 400 + (daysBeforeMonth d.year d.month : ℤ) + (d.day : ℤ)

/-- Source `src/services/daily_reporter.py:60` — fixed daily calorie target. -/
def daily_calories_target : ℚ := 2200

/-- Source `src/services/daily_reporter.py:61` — fixed daily protein target. -/
def daily_protein_target : ℚ := 150

/-- Source `src/services/daily_reporter.py:62` — fixed daily fiber target. -/
def daily_fiber_target : ℚ := 50

/-- Source `src/services/daily_reporter.py:63` — fixed weekly berries target. -/
def weekly_berries_target : ℚ := 175

/-- Source `src/services/daily_reporter.py:64` — fixed weekly red-meat cap. -/
def weekly_red_meat_max : ℚ := 700

/-- Source `src/services/daily_reporter.py:67-71` — the calorie status computed
by `DailyReporter._build_report_prompt`: start at "норма" (on target),
switch to "превышение" (over) when calories exceed `target * 1.1`, else
to "недобор" (under) when below `target * 0.8`. -/
def calories_status (total_calories : ℚ) : String :=
  if total_calories > daily_calories_target * 1.1 then "превышение"
  else if total_calories < daily_calories_target * 0.8 then "недобор"
  else "норма"

/-- Source `src/services/daily_reporter.py:73` — percent of daily protein target. -/
def protein_percent (p : ℚ) : ℚ := p / daily_protein_target * 100

/-- Source `src/services/daily_reporter.py:74` — percent of daily fiber target. -/
def fiber_percent (p : ℚ) : ℚ := p / daily_fiber_target * 100

/-- Source `src/services/daily_reporter.py:79` — percent of weekly berries target. -/
def berries_week_percent (p : ℚ) : ℚ := p / weekly_berries_target * 100

/-- Source `src/services/daily_reporter.py:80` — percent of weekly red-meat cap. -/
def red_meat_week_percent (p : ℚ) : ℚ := p / weekly_red_meat_max * 100

/-- States of the SQLite store reachable through the adapter's public
write path: the empty store created by `init_db`, grown only by
`save_food_entry` (the sole caller of the private `_update_daily_stats`;
no other method writes `food_entries` or `daily_stats`). -/
inductive SQLiteReachable : SQLiteDB → Prop where
  | init : SQLiteReachable ⟨[], []⟩
  | save (db : SQLiteDB) (u : ℤ) (a : AnalysisShape) (today now : ℕ) :
      SQLiteReachable db → SQLiteReachable (sqliteSaveFoodEntry db u a today now)

/-- Reachable states of the PostgreSQL store, likewise grown only by
`save_food_entry`. -/
inductive PGReachable : PGDB → Prop where
  | init : PGReachable ⟨[], []⟩
  | save (db : PGDB) (u : ℤ) (a : FoodAnalysisResult) (today now : ℕ) :
      PGReachable db → PGReachable (pgSaveFoodEntry db u a today now)

/-- One day's contribution to the spec-side range sum for the SQLite
store: the per-day stats lookup, a missing day contributing zero. -/
def sqliteDayContrib (db : SQLiteDB) (u : ℤ) (f : FoodData → ℚ) (d : ℕ) : ℚ :=
  match sqliteGetDailyStats db u d with
  | some v => f v
  | none => 0

/-- One day's contribution to the spec-side range sum for the PostgreSQL
store. -/
def pgDayContrib (db : PGDB) (u : ℤ) (f : FoodData → ℚ) (d : ℕ) : ℚ :=
  match pgGetDailyStats db u d with
  | some v => f v
  | none => 0

/-- Stated from the spec's words for the range-query claim: the
field-wise sum of the per-day stats lookup over each date of
[start, endd], dates with no row contributing zero (SQLite store). -/
def specRangeSumSqlite (db : SQLiteDB) (u : ℤ) (start endd : ℕ) : WeeklyStats :=
  ⟨∑ d in Finset.Icc start endd, sqliteDayContrib db u (·.calories) d,
   ∑ d in Finset.Icc start endd, sqliteDayContrib db u (·.protein) d,
   ∑ d in Finset.Icc start endd, sqliteDayContrib db u (·.fiber) d,
   ∑ d in Finset.Icc start endd, sqliteDayContrib db u (·.berries) d,
   ∑ d in Finset.Icc start endd, sqliteDayContrib db u (·.red_meat) d,
   ∑ d in Finset.Icc start endd, sqliteDayContrib db u (·.seafood) d,
   ∑ d in Finset.Icc start endd, sqliteDayContrib db u (·.nuts) d,
   ∑ d in Finset.Icc start endd, sqliteDayContrib db u (·.vegetables) d⟩

/-- Stated from the spec's words for the range-query claim (PostgreSQL
store). -/
def specRangeSumPg (db : PGDB) (u : ℤ) (start endd : ℕ) : WeeklyStats :=
  ⟨∑ d in Finset.Icc start endd, pgDayContrib db u (·.calories) d,
   ∑ d in Finset.Icc start endd, pgDayContrib db u (·.protein) d,
   ∑ d in Finset.Icc start endd, pgDayContrib db u (·.fiber) d,
   ∑ d in Finset.Icc start endd, pgDayContrib db u (·.berries) d,
   ∑ d in Finset.Icc start endd, pgDayContrib db u (·.red_meat) d,
   ∑ d in Finset.Icc start endd, pgDayContrib db u (·.seafood) d,
   ∑ d in Finset.Icc start endd, pgDayContrib db u (·.nuts) d,
   ∑ d in Finset.Icc start endd, pgDayContrib db u (·.vegetables) d⟩

theorem sumFood_cons (x : FoodData) (xs : List FoodData) :
    sumFood (x :: xs) = addFood x (sumFood xs) := rfl

theorem sumFood_calories (l : List FoodData) :
    (sumFood l).calories = (l.map (·.calories)).sum := by
  induction l with
  | nil => rfl
  | cons x xs ih => simp [sumFood_cons, addFood, ih]

theorem find?_append_singleton {α : Type} (p : α → Bool) (l : List α) (r : α)
    (h : ∀ x ∈ l, p x = false) (hr : p r = true) :
    List.find? p (l ++ [r]) = some r := by
  induction l with
  | nil => simp [List.find?, hr]
  | cons x xs ih =>
    have hx := h x (List.mem_cons_self x xs)
    rw [List.cons_append, List.find?_cons_of_neg]
    · exact ih (fun y hy => h y (List.mem_cons_of_mem x hy))
    · simp [hx]

theorem sqliteUpsert_find_self (rows : List SQLiteStatsRow) (r : SQLiteStatsRow) :
    List.find? (fun s => s.user_id == r.user_id && s.date == r.date)
      (sqliteUpsert rows r) = some r := by
  apply find?_append_singleton
  · intro x hx
    have hmem := (List.mem_filter.mp hx).2
    simp at hmem ⊢
    tauto
  · simp

theorem pgUpsert_find_self (rows : List PGStatsRow) (r : PGStatsRow) :
    List.find? (fun s => s.user_id == r.user_id && s.date == r.date)
      (pgUpsert rows r) = some r := by
  apply find?_append_singleton
  · intro x hx
    have hmem := (List.mem_filter.mp hx).2
    simp at hmem ⊢
    tauto
  · simp

/-- C1: after any execution of the daily-stats recompute
(`_update_daily_stats`) for a (user, date) key, every nutrient field of
that key's DailyStats row equals the field-wise sum over all FoodEntry
rows with that (user, date) — in particular the calories field equals the
sum of entry calories.  In the SQLite adapter the recompute is always
invoked with at least one matching entry (it only runs from
`save_food_entry`, right after the entry insert), which the nonemptiness
hypothesis records; the PostgreSQL adapter `COALESCE`s and needs no
hypothesis. -/
theorem sum_invariant_after_recompute (db : SQLiteDB) (pdb : PGDB)
    (u : ℤ) (d now : ℕ) :
    (matchingEntries db.food_entries u d ≠ [] →
      sqliteGetDailyStats (sqliteUpdateDailyStats db u d now) u d =
        some (sumFood ((matchingEntries db.food_entries u d).map (·.vals)))) ∧
    pgGetDailyStats (pgUpdateDailyStats pdb u d now) u d =
      some (sumFood ((matchingEntries pdb.food_entries u d).map (·.vals))) ∧
    (sumFood ((matchingEntries db.food_entries u d).map (·.vals))).calories =
      ((matchingEntries db.food_entries u d).map (fun e => e.vals.calories)).sum := by
  refine ⟨?_, ?_, ?_⟩
  · intro hne
    have hfind := sqliteUpsert_find_self db.daily_stats
      ⟨u, d, sqlSumFood (matchingEntries db.food_entries u d), now⟩
    simp only [sqliteGetDailyStats, sqliteUpdateDailyStats]
    rw [hfind]
    simp [sqlSumFood, hne]
  · have hfind := pgUpsert_find_self pdb.daily_stats
      ⟨u, d, sumFood ((matchingEntries pdb.food_entries u d).map (·.vals)), now⟩
    simp only [pgGetDailyStats, pgUpdateDailyStats]
    rw [hfind]
    rfl
  · rw [sumFood_calories, List.map_map]
    rfl

/-- Witness for `sum_invariant_after_recompute`: the spec's scenario —
three entries for the same user and date with calories {300, 450, 220};
after recompute the day's row holds their sums (970 kcal). -/
theorem sum_invariant_witness :
    matchingEntries
        [⟨1, 5, ⟨300, 20, 30, 10, 5, 0, 0, 0, 0, 0⟩⟩,
         ⟨1, 5, ⟨450, 30, 40, 15, 8, 0, 0, 0, 0, 0⟩⟩,
         ⟨1, 5, ⟨220, 10, 20, 5, 3, 0, 0, 0, 0, 0⟩⟩] 1 5 ≠ [] ∧
    sqliteGetDailyStats
      (sqliteUpdateDailyStats
        ⟨[⟨1, 5, ⟨300, 20, 30, 10, 5, 0, 0, 0, 0, 0⟩⟩,
          ⟨1, 5, ⟨450, 30, 40, 15, 8, 0, 0, 0, 0, 0⟩⟩,
          ⟨1, 5, ⟨220, 10, 20, 5, 3, 0, 0, 0, 0, 0⟩⟩], []⟩ 1 5 7) 1 5 =
      some (sumFood ((matchingEntries
        [⟨1, 5, ⟨300, 20, 30, 10, 5, 0, 0, 0, 0, 0⟩⟩,
         ⟨1, 5, ⟨450, 30, 40, 15, 8, 0, 0, 0, 0, 0⟩⟩,
         ⟨1, 5, ⟨220, 10, 20, 5, 3, 0, 0, 0, 0, 0⟩⟩] 1 5).map (·.vals))) ∧
    sumFood ((matchingEntries
        [⟨1, 5, ⟨300, 20, 30, 10, 5, 0, 0, 0, 0, 0⟩⟩,
         ⟨1, 5, ⟨450, 30, 40, 15, 8, 0, 0, 0, 0, 0⟩⟩,
         ⟨1, 5, ⟨220, 10, 20, 5, 3, 0, 0, 0, 0, 0⟩⟩] 1 5).map (·.vals)) =
      ⟨970, 60, 90, 30, 16, 0, 0, 0, 0, 0⟩ :=
  ⟨by decide,
   (sum_invariant_after_recompute
      ⟨[⟨1, 5, ⟨300, 20, 30, 10, 5, 0, 0, 0, 0, 0⟩⟩,
        ⟨1, 5, ⟨450, 30, 40, 15, 8, 0, 0, 0, 0, 0⟩⟩,
        ⟨1, 5, ⟨220, 10, 20, 5, 3, 0, 0, 0, 0, 0⟩⟩], []⟩ ⟨[], []⟩ 1 5 7).1
     (by decide),
   by
    simp [matchingEntries, sumFood, addFood, zeroFood]
    norm_num⟩

theorem sqliteUpsert_upsert (rows : List SQLiteStatsRow)
    (r1 r2 : SQLiteStatsRow) (hu : r1.user_id = r2.user_id)
    (hd : r1.date = r2.date) :
    sqliteUpsert (sqliteUpsert rows r1) r2 = sqliteUpsert rows r2 := by
  unfold sqliteUpsert
  rw [List.filter_append, List.filter_filter]
  simp [hu, hd]

theorem pgUpsert_upsert (rows : List PGStatsRow)
    (r1 r2 : PGStatsRow) (hu : r1.user_id = r2.user_id)
    (hd : r1.date = r2.date) :
    pgUpsert (pgUpsert rows r1) r2 = pgUpsert rows r2 := by
  unfold pgUpsert
  rw [List.filter_append, List.filter_filter]
  simp [hu, hd]

/-- C6: running the daily-stats recompute twice in a row for the same
(user, date), with no entry inserted in between, leaves exactly the state
a single recompute would have left: the upserted row carries the same ten
nutrient sums bit-for-bit, and only its `updated_at` timestamp comes from
the later run (`t2`). -/
theorem recompute_idempotent (db : SQLiteDB) (pdb : PGDB)
    (u : ℤ) (d t1 t2 : ℕ) :
    sqliteUpdateDailyStats (sqliteUpdateDailyStats db u d t1) u d t2 =
      sqliteUpdateDailyStats db u d t2 ∧
    pgUpdateDailyStats (pgUpdateDailyStats pdb u d t1) u d t2 =
      pgUpdateDailyStats pdb u d t2 := by
  constructor
  · unfold sqliteUpdateDailyStats
    simp only []
    rw [sqliteUpsert_upsert] <;> rfl
  · unfold pgUpdateDailyStats
    simp only []
    rw [pgUpsert_upsert] <;> rfl

/-- C10: `save_food_entry` (both adapters) takes no caller-supplied date;
the inserted FoodEntry row is dated `today`, the value of `date.today()`
at the moment of the call (modelled as the explicit clock argument), so
an entry can only ever be recorded against the current calendar date. -/
theorem save_entry_uses_current_date (db : SQLiteDB) (pdb : PGDB)
    (u : ℤ) (a : AnalysisShape) (b : FoodAnalysisResult) (today now : ℕ) :
    (sqliteSaveFoodEntry db u a today now).food_entries =
      db.food_entries ++ [⟨u, today, extract_food_data a⟩] ∧
    (pgSaveFoodEntry pdb u b today now).food_entries =
      pdb.food_entries ++ [⟨u, today, legacyToFood b⟩] :=
  ⟨rfl, rfl⟩

/-- C2 (code bug): the default 7-day lookback start used by
`get_weekly_stats` when no start date is given.  Anchored on 2025-03-03
the naive day-of-month subtraction (`today.replace(day=today.day-6)` /
`date(today.year, today.month, today.day - 6)`) asks for day -3 of March
and raises `ValueError` (modelled as `none`) instead of producing the
calendar-correct window start 2025-02-25, which is a valid date exactly
6 days before the anchor (ordinal difference 6, so the window
2025-02-25 .. 2025-03-03 spans 7 days).  For an anchor past the 6th of
the month (e.g. 2025-03-10) the naive computation does succeed, staying
inside the month. -/
theorem naive_lookback_fails_on_2025_03_03 :
    naiveWeeklyStart ⟨2025, 3, 3⟩ = none ∧
    (⟨2025, 2, 25⟩ : PyDate).Valid ∧
    PyDate.toOrdinal ⟨2025, 3, 3⟩ - PyDate.toOrdinal ⟨2025, 2, 25⟩ = 6 ∧
    naiveWeeklyStart ⟨2025, 3, 10⟩ = some ⟨2025, 3, 4⟩ := by
  refine ⟨?_, ?_, ?_, ?_⟩ <;> decide

/-- All ten canonical fields non-negative. -/
def FoodData.Nonneg (x : FoodData) : Prop :=
  0 ≤ x.calories ∧ 0 ≤ x.protein ∧ 0 ≤ x.carbs ∧ 0 ≤ x.fat ∧ 0 ≤ x.fiber ∧
  0 ≤ x.berries ∧ 0 ≤ x.red_meat ∧ 0 ≤ x.seafood ∧ 0 ≤ x.nuts ∧
  0 ≤ x.vegetables

instance (x : FoodData) : Decidable x.Nonneg := by
  unfold FoodData.Nonneg; infer_instance

/-- Every attribute of a totals-free input that is present is
non-negative (an absent attribute reads as `0` through `getattr`). -/
def DynLegacy.NonnegAttrs (o : DynLegacy) : Prop :=
  0 ≤ o.total_calories.getD 0 ∧ 0 ≤ o.total_protein.getD 0 ∧
  0 ≤ o.total_carbs.getD 0 ∧ 0 ≤ o.total_fat.getD 0 ∧
  0 ≤ o.total_fiber.getD 0 ∧ 0 ≤ o.berries_grams.getD 0 ∧
  0 ≤ o.red_meat_grams.getD 0 ∧ 0 ≤ o.seafood_grams.getD 0 ∧
  0 ≤ o.nuts_grams.getD 0 ∧ 0 ≤ o.vegetables_grams.getD 0

instance (o : DynLegacy) : Decidable o.NonnegAttrs := by
  unfold DynLegacy.NonnegAttrs; infer_instance

/-- A `FoodAnalysisResult` the legacy pydantic model accepts (it bounds
no field below), carrying `total_calories = -100`. -/
def badLegacy : FoodAnalysisResult :=
  ⟨1, -100, 0, 0, 0, 0, 0, 0, 0, 0, 0, 0, 0, "implausible analysis"⟩

/-- C4 counterexample: the claim "for every valid legacy-shape input the
canonical record is non-negative" fails — the legacy model imposes no
lower bound and `_extract_food_data` does not clamp, so the valid legacy
input `badLegacy` (total_calories = -100) normalizes to a record with
negative calories. -/
theorem normalize_nonneg_counterexample :
    (extract_food_data (.flat badLegacy.toDyn)).calories = -100 ∧
    ¬ 0 ≤ (extract_food_data (.flat badLegacy.toDyn)).calories := by
  constructor <;> decide

/-- C4 (amended): the normalizer always produces all ten canonical
fields, substituting `0.0` for any field the input shape does not carry;
the record is non-negative whenever the input's values are — which the
professional shape's `ge=0` validation guarantees, while the legacy
shape's model does not enforce (nor does the normalizer coerce). -/
theorem normalize_fields_amended (p : ProfessionalFoodAnalysis) (o : DynLegacy) :
    (p.totals.Valid → (extract_food_data (.professional p)).Nonneg) ∧
    (o.NonnegAttrs → (extract_food_data (.flat o)).Nonneg) ∧
    (o.total_calories = none → (extract_food_data (.flat o)).calories = 0) ∧
    (o.total_protein = none → (extract_food_data (.flat o)).protein = 0) ∧
    (o.total_carbs = none → (extract_food_data (.flat o)).carbs = 0) ∧
    (o.total_fat = none → (extract_food_data (.flat o)).fat = 0) ∧
    (o.total_fiber = none → (extract_food_data (.flat o)).fiber = 0) ∧
    (o.berries_grams = none → (extract_food_data (.flat o)).berries = 0) ∧
    (o.red_meat_grams = none → (extract_food_data (.flat o)).red_meat = 0) ∧
    (o.seafood_grams = none → (extract_food_data (.flat o)).seafood = 0) ∧
    (o.nuts_grams = none → (extract_food_data (.flat o)).nuts = 0) ∧
    (o.vegetables_grams = none → (extract_food_data (.flat o)).vegetables = 0) := by
  refine ⟨?_, ?_, ?_, ?_, ?_, ?_, ?_, ?_, ?_, ?_, ?_, ?_⟩
  · intro hv
    obtain ⟨h1, h2, h3, h4, h5, -⟩ := hv
    have hc : (0 : ℚ) ≤ (p.totals.kcal : ℚ) := by exact_mod_cast h1
    exact ⟨hc, h2, h4, h3, h5,
      le_refl 0, le_refl 0, le_refl 0, le_refl 0, le_refl 0⟩
  · intro h
    exact h
  all_goals intro h
  all_goals simp [extract_food_data, h]

/-- Witness for `normalize_fields_amended`: a concrete valid professional
totals record and the all-attributes-absent object. -/
theorem normalize_fields_amended_witness :
    (⟨700, 30, 20, 80, 7, 12, 150, 3, 250, 1, 90⟩ : NutrientTotals).Valid ∧
    (extract_food_data (.professional ⟨"2025-08-01-lunch",
        ⟨700, 30, 20, 80, 7, 12, 150, 3, 250, 1, 90⟩⟩)).Nonneg ∧
    emptyDyn.NonnegAttrs ∧
    (extract_food_data (.flat emptyDyn)).Nonneg ∧
    emptyDyn.total_calories = none ∧
    (extract_food_data (.flat emptyDyn)).calories = 0 :=
  ⟨by decide,
   (normalize_fields_amended
     ⟨"2025-08-01-lunch", ⟨700, 30, 20, 80, 7, 12, 150, 3, 250, 1, 90⟩⟩
     emptyDyn).1 (by decide),
   by decide,
   (normalize_fields_amended
     ⟨"2025-08-01-lunch", ⟨700, 30, 20, 80, 7, 12, 150, 3, 250, 1, 90⟩⟩
     emptyDyn).2.1 (by decide),
   rfl,
   (normalize_fields_amended
     ⟨"2025-08-01-lunch", ⟨700, 30, 20, 80, 7, 12, 150, 3, 250, 1, 90⟩⟩
     emptyDyn).2.2.1 rfl⟩

/-- C5: for a professional-shape input the normalizer maps `totals.kcal`,
`totals.protein_g`, `totals.carb_g`, `totals.fat_g`, `totals.fiber_g` to
the canonical calories/protein/carbs/fat/fiber as floats and zeroes all
five category-weight fields; in particular `totals.kcal = 540`,
`totals.protein_g = 32.5` yield calories 540, protein 32.5, berries 0. -/
theorem professional_totals_mapping (p : ProfessionalFoodAnalysis) :
    extract_food_data (.professional p) =
      ⟨(p.totals.kcal : ℚ), p.totals.protein_g, p.totals.carb_g,
       p.totals.fat_g, p.totals.fiber_g, 0, 0, 0, 0, 0⟩ ∧
    (extract_food_data (.professional ⟨"2025-08-01-breakfast",
        ⟨540, 32.5, 18, 45, 6, 10, 120, 2, 300, 1, 80⟩⟩)).calories = 540 ∧
    (extract_food_data (.professional ⟨"2025-08-01-breakfast",
        ⟨540, 32.5, 18, 45, 6, 10, 120, 2, 300, 1, 80⟩⟩)).protein = 32.5 ∧
    (extract_food_data (.professional ⟨"2025-08-01-breakfast",
        ⟨540, 32.5, 18, 45, 6, 10, 120, 2, 300, 1, 80⟩⟩)).berries = 0 := by
  refine ⟨rfl, by norm_num [extract_food_data], rfl, rfl⟩

/-- C7: an input carrying neither a `totals` attribute nor any of the
flat nutrient attributes raises no error in the normalizer: every
`getattr(..., field, 0)` defaults, and the result is the all-zero
canonical record ("successful but empty", never a failure). -/
theorem unknown_shape_normalizes_to_zero (o : DynLegacy)
    (h : o.total_calories = none ∧ o.total_protein = none ∧
         o.total_carbs = none ∧ o.total_fat = none ∧ o.total_fiber = none ∧
         o.berries_grams = none ∧ o.red_meat_grams = none ∧
         o.seafood_grams = none ∧ o.nuts_grams = none ∧
         o.vegetables_grams = none) :
    extract_food_data (.flat o) = zeroFood := by
  obtain ⟨h1, h2, h3, h4, h5, h6, h7, h8, h9, h10⟩ := h
  simp [extract_food_data, zeroFood, h1, h2, h3, h4, h5, h6, h7, h8, h9, h10]

/-- Witness for `unknown_shape_normalizes_to_zero` at the concrete
attribute-free object. -/
theorem unknown_shape_witness :
    (emptyDyn.total_calories = none ∧ emptyDyn.total_protein = none ∧
     emptyDyn.total_carbs = none ∧ emptyDyn.total_fat = none ∧
     emptyDyn.total_fiber = none ∧ emptyDyn.berries_grams = none ∧
     emptyDyn.red_meat_grams = none ∧ emptyDyn.seafood_grams = none ∧
     emptyDyn.nuts_grams = none ∧ emptyDyn.vegetables_grams = none) ∧
    extract_food_data (.flat emptyDyn) = zeroFood :=
  ⟨by decide, unknown_shape_normalizes_to_zero emptyDyn (by decide)⟩

/-- C9: `_build_report_prompt` classifies calorie status as over
("превышение") exactly when actual calories exceed the 2200 target by
more than 10%, as under ("недобор") exactly when they fall below it by
more than 20%, and as on target ("норма") otherwise; and each tracked
nutrient's percent of target is actual/target × 100. -/
theorem report_thresholds (c p fb bw rw : ℚ) :
    (calories_status c = "превышение" ↔
      daily_calories_target + daily_calories_target / 10 < c) ∧
    (calories_status c = "недобор" ↔
      c < daily_calories_target - daily_calories_target / 5) ∧
    (calories_status c = "норма" ↔
      (daily_calories_target - daily_calories_target / 5 ≤ c ∧
       c ≤ daily_calories_target + daily_calories_target / 10)) ∧
    protein_percent p = p / daily_protein_target * 100 ∧
    fiber_percent fb = fb / daily_fiber_target * 100 ∧
    berries_week_percent bw = bw / weekly_berries_target * 100 ∧
    red_meat_week_percent rw = rw / weekly_red_meat_max * 100 := by
  have hover : daily_calories_target * 1.1 =
      daily_calories_target + daily_calories_target / 10 := by
    norm_num [daily_calories_target]
  have hunder : daily_calories_target * 0.8 =
      daily_calories_target - daily_calories_target / 5 := by
    norm_num [daily_calories_target]
  have ht : daily_calories_target = (2200 : ℚ) := rfl
  unfold calories_status
  rw [hover, hunder]
  refine ⟨?_, ?_, ?_, rfl, rfl, rfl, rfl⟩
  · split_ifs with ha hb
    · simp [ha]
    · simp [ha]
    · simp [ha]
  · split_ifs with ha hb
    · simp only [gt_iff_lt] at ha
      constructor
      · intro hs; exact absurd hs (by decide)
      · intro hc; linarith [ht]
    · simp [hb]
    · simp [hb]
  · split_ifs with ha hb
    · simp only [gt_iff_lt] at ha
      constructor
      · intro hs; exact absurd hs (by decide)
      · intro hc; linarith [ht, hc.2]
    · constructor
      · intro hs; exact absurd hs (by decide)
      · intro hc; linarith [ht, hc.1]
    · simp only [not_lt, gt_iff_lt] at ha hb
      simp [ha, hb]

/-- Witness for `report_thresholds` at concrete intakes: 2500 kcal is
over, 1500 under, 2000 on target; 75 g protein is 50% of target. -/
theorem report_thresholds_witness :
    calories_status 2500 = "превышение" ∧
    calories_status 1500 = "недобор" ∧
    calories_status 2000 = "норма" ∧
    protein_percent 75 = 50 :=
  ⟨((report_thresholds 2500 75 0 0 0).1).mpr
      (by norm_num [daily_calories_target]),
   ((report_thresholds 1500 75 0 0 0).2.1).mpr
      (by norm_num [daily_calories_target]),
   ((report_thresholds 2000 75 0 0 0).2.2.1).mpr
      (by norm_num [daily_calories_target]),
   by norm_num [protein_percent, daily_protein_target]⟩

theorem sqlite_no_entries_no_row (u : ℤ) (d : ℕ) :
    ∀ (db : SQLiteDB), SQLiteReachable db →
    (∀ e ∈ db.food_entries, ¬(e.user_id = u ∧ e.date = d)) →
    db.daily_stats.find? (fun s => s.user_id == u && s.date == d) = none := by
  intro db h
  induction h with
  | init => intro _; rfl
  | save db0 u0 a t0 n0 _ ih =>
    intro hne
    have hne0 : ∀ e ∈ db0.food_entries, ¬(e.user_id = u ∧ e.date = d) := by
      intro e he
      exact hne e (by
        show e ∈ db0.food_entries ++ [⟨u0, t0, extract_food_data a⟩]
        exact List.mem_append_left _ he)
    have hkey : ¬(u0 = u ∧ t0 = d) :=
      hne ⟨u0, t0, extract_food_data a⟩
        (List.mem_append_right _ (List.mem_singleton_self _))
    have hold := ih hne0
    rw [List.find?_eq_none] at hold ⊢
    intro x hx
    rcases List.mem_append.mp hx with hl | hr
    · exact hold x (List.mem_filter.mp hl).1
    · rcases List.mem_singleton.mp hr with rfl
      simp only [Bool.and_eq_true, beq_iff_eq, not_and] at hkey ⊢
      exact fun h1 h2 => hkey h1 h2

theorem pg_no_entries_no_row (u : ℤ) (d : ℕ) :
    ∀ (db : PGDB), PGReachable db →
    (∀ e ∈ db.food_entries, ¬(e.user_id = u ∧ e.date = d)) →
    db.daily_stats.find? (fun s => s.user_id == u && s.date == d) = none := by
  intro db h
  induction h with
  | init => intro _; rfl
  | save db0 u0 a t0 n0 _ ih =>
    intro hne
    have hne0 : ∀ e ∈ db0.food_entries, ¬(e.user_id = u ∧ e.date = d) := by
      intro e he
      exact hne e (by
        show e ∈ db0.food_entries ++ [⟨u0, t0, legacyToFood a⟩]
        exact List.mem_append_left _ he)
    have hkey : ¬(u0 = u ∧ t0 = d) :=
      hne ⟨u0, t0, legacyToFood a⟩
        (List.mem_append_right _ (List.mem_singleton_self _))
    have hold := ih hne0
    rw [List.find?_eq_none] at hold ⊢
    intro x hx
    rcases List.mem_append.mp hx with hl | hr
    · exact hold x (List.mem_filter.mp hl).1
    · rcases List.mem_singleton.mp hr with rfl
      simp only [Bool.and_eq_true, beq_iff_eq, not_and] at hkey ⊢
      exact fun h1 h2 => hkey h1 h2

/-- C8: in any store state reachable through the adapters' write path,
`get_daily_stats` for a (user, date) with zero FoodEntry rows returns the
explicit absent result (`None`) — not a zero-valued row, and not an
error (the lookup is total). -/
theorem getDay_not_found_without_entries (db : SQLiteDB) (pdb : PGDB)
    (u : ℤ) (d : ℕ) (hs : SQLiteReachable db) (hp : PGReachable pdb)
    (h1 : ∀ e ∈ db.food_entries, ¬(e.user_id = u ∧ e.date = d))
    (h2 : ∀ e ∈ pdb.food_entries, ¬(e.user_id = u ∧ e.date = d)) :
    sqliteGetDailyStats db u d = none ∧ pgGetDailyStats pdb u d = none := by
  constructor
  · unfold sqliteGetDailyStats
    rw [sqlite_no_entries_no_row u d db hs h1]
    rfl
  · unfold pgGetDailyStats
    rw [pg_no_entries_no_row u d pdb hp h2]
    rfl

/-- A benign concrete legacy analysis used by witnesses. -/
def sampleLegacy : FoodAnalysisResult :=
  ⟨1, 300, 20, 30, 10, 5, 0, 0, 0, 0, 0, 0, 0, "salad"⟩

/-- Witness for `getDay_not_found_without_entries`: after one save for
user 1 on day 5, querying user 2 on day 5 finds nothing in either store. -/
theorem getDay_not_found_witness :
    sqliteGetDailyStats
      (sqliteSaveFoodEntry ⟨[], []⟩ 1 (.flat emptyDyn) 5 100) 2 5 = none ∧
    pgGetDailyStats (pgSaveFoodEntry ⟨[], []⟩ 1 sampleLegacy 5 100) 2 5 = none :=
  getDay_not_found_without_entries
    (sqliteSaveFoodEntry ⟨[], []⟩ 1 (.flat emptyDyn) 5 100)
    (pgSaveFoodEntry ⟨[], []⟩ 1 sampleLegacy 5 100) 2 5
    (SQLiteReachable.save ⟨[], []⟩ 1 (.flat emptyDyn) 5 100 SQLiteReachable.init)
    (PGReachable.save ⟨[], []⟩ 1 sampleLegacy 5 100 PGReachable.init)
    (by intro e he; rcases List.mem_singleton.mp he with rfl; decide)
    (by intro e he; rcases List.mem_singleton.mp he with rfl; decide)
theorem filter_sum_eq_icc_sum {α : Type} (keyU : α → ℤ) (keyD : α → ℕ) (c : α → ℚ)
    (u : ℤ) (start endd : ℕ) :
    ∀ (rows : List α),
    rows.Pairwise (fun a b => ¬(keyU a = keyU b ∧ keyD a = keyD b)) →
    (∀ r ∈ rows, keyU r = u → keyD r ≤ endd) →
    ((rows.filter (fun s => keyU s == u && decide (start ≤ keyD s))).map c).sum
      = ∑ d in Finset.Icc start endd,
          ((rows.find? (fun s => keyU s == u && keyD s == d)).elim 0 c) := by
  intro rows
  induction rows with
  | nil =>
    intro _ _
    simp
  | cons r rest ih =>
    intro hpw hend
    have hhead := (List.pairwise_cons.mp hpw).1
    have hpw' := (List.pairwise_cons.mp hpw).2
    have hend' : ∀ x ∈ rest, keyU x = u → keyD x ≤ endd :=
      fun x hx => hend x (List.mem_cons_of_mem _ hx)
    by_cases hu : keyU r = u
    · by_cases hs : start ≤ keyD r
      · have hcond : (keyU r == u && decide (start ≤ keyD r)) = true := by
          simp [hu, hs]
        rw [List.filter_cons_of_pos
              (p := fun s => keyU s == u && decide (start ≤ keyD s)) hcond,
            List.map_cons, List.sum_cons, ih hpw' hend']
        have hmem : keyD r ∈ Finset.Icc start endd :=
          Finset.mem_Icc.mpr ⟨hs, hend r (List.mem_cons_self _ _) hu⟩
        have hpt : ∀ d ∈ Finset.Icc start endd,
            ((List.find? (fun s => keyU s == u && keyD s == d) (r :: rest)).elim 0 c)
            = if keyD r = d then c r
              else ((List.find? (fun s => keyU s == u && keyD s == d) rest).elim 0 c) := by
          intro d _
          by_cases hd : keyD r = d
          · rw [List.find?_cons_of_pos (p := fun s => keyU s == u && keyD s == d)
                  rest (by simp [hu, hd]), if_pos hd]
            rfl
          · rw [List.find?_cons_of_neg (p := fun s => keyU s == u && keyD s == d)
                  rest (by simp [hd]), if_neg hd]
        have hGzero :
            (List.find? (fun s => keyU s == u && keyD s == keyD r) rest).elim 0 c = 0 := by
          have hnone : List.find? (fun s => keyU s == u && keyD s == keyD r) rest = none := by
            rw [List.find?_eq_none]
            intro x hx hcontra
            simp only [Bool.and_eq_true, beq_iff_eq] at hcontra
            exact hhead x hx ⟨hu.trans hcontra.1.symm, hcontra.2.symm⟩
          rw [hnone]
          rfl
        rw [Finset.sum_congr rfl hpt,
            ← Finset.add_sum_erase _
              (fun d => if keyD r = d then c r
                else (List.find? (fun s => keyU s == u && keyD s == d) rest).elim 0 c)
              hmem,
            if_pos rfl]
        congr 1
        rw [← Finset.sum_erase (a := keyD r)
              (f := fun d => (List.find? (fun s => keyU s == u && keyD s == d) rest).elim 0 c)
              _ hGzero]
        apply Finset.sum_congr rfl
        intro d hd
        rw [if_neg (fun h => (Finset.mem_erase.mp hd).1 h.symm)]
      · have hcond : ¬ ((keyU r == u && decide (start ≤ keyD r)) = true) := by
          simp [hs]
        rw [List.filter_cons_of_neg
              (p := fun s => keyU s == u && decide (start ≤ keyD s)) hcond,
            ih hpw' hend']
        apply Finset.sum_congr rfl
        intro d hd
        have hstart : start ≤ d := (Finset.mem_Icc.mp hd).1
        have hne : keyD r ≠ d := fun h => hs (h ▸ hstart)
        rw [List.find?_cons_of_neg (p := fun s => keyU s == u && keyD s == d)
              rest (by simp [hne])]
    · have hcond : ¬ ((keyU r == u && decide (start ≤ keyD r)) = true) := by
        simp [hu]
      rw [List.filter_cons_of_neg
            (p := fun s => keyU s == u && decide (start ≤ keyD s)) hcond,
          ih hpw' hend']
      apply Finset.sum_congr rfl
      intro d hd
      rw [List.find?_cons_of_neg (p := fun s => keyU s == u && keyD s == d)
            rest (by simp [hu])]

theorem sqliteDayContrib_elim (db : SQLiteDB) (u : ℤ) (f : FoodData → ℚ) (d : ℕ) :
    sqliteDayContrib db u f d =
      ((db.daily_stats.find? (fun s => s.user_id == u && s.date == d)).elim 0
        (sqliteRowContrib f)) := by
  unfold sqliteDayContrib sqliteGetDailyStats sqliteRowContrib
  cases hf : db.daily_stats.find? (fun s => s.user_id == u && s.date == d) with
  | none => rfl
  | some r =>
    cases hr : r.vals with
    | none => simp [hr]
    | some v => simp [hr]

theorem pgDayContrib_elim (db : PGDB) (u : ℤ) (f : FoodData → ℚ) (d : ℕ) :
    pgDayContrib db u f d =
      ((db.daily_stats.find? (fun s => s.user_id == u && s.date == d)).elim 0
        (fun r => f r.vals)) := by
  unfold pgDayContrib pgGetDailyStats
  cases hf : db.daily_stats.find? (fun s => s.user_id == u && s.date == d) with
  | none => rfl
  | some r => simp

/-- C3: the range query (`get_weekly_stats` from an explicit start date —
its result's eight aggregate fields) equals the field-wise sum of the
per-day stats lookup over each date of [start, endd], a date with no
DailyStats row contributing zero and never causing an error.  `endd` is
any upper bound on the user's populated dates (the SQL range is open
above: `date >= start`); the pairwise hypothesis is the (user_id, date)
primary key of `daily_stats`, enforced by the schema. -/
theorem range_query_eq_sum_of_days (db : SQLiteDB) (pdb : PGDB) (u : ℤ)
    (start endd : ℕ)
    (h1 : db.daily_stats.Pairwise
      (fun a b => ¬(a.user_id = b.user_id ∧ a.date = b.date)))
    (h2 : ∀ r ∈ db.daily_stats, r.user_id = u → r.date ≤ endd)
    (h3 : pdb.daily_stats.Pairwise
      (fun a b => ¬(a.user_id = b.user_id ∧ a.date = b.date)))
    (h4 : ∀ r ∈ pdb.daily_stats, r.user_id = u → r.date ≤ endd) :
    sqliteGetWeeklyStats db u start = specRangeSumSqlite db u start endd ∧
    pgGetWeeklyStats pdb u start = specRangeSumPg pdb u start endd := by
  constructor
  · unfold sqliteGetWeeklyStats specRangeSumSqlite sqliteWeeklyField
    simp only [WeeklyStats.mk.injEq]
    refine ⟨?_, ?_, ?_, ?_, ?_, ?_, ?_, ?_⟩ <;>
    · refine (filter_sum_eq_icc_sum (fun s => s.user_id) (fun s => s.date)
        _ u start endd db.daily_stats h1 h2).trans ?_
      apply Finset.sum_congr rfl
      intro d _
      exact (sqliteDayContrib_elim db u _ d).symm
  · unfold pgGetWeeklyStats specRangeSumPg pgWeeklyField
    simp only [WeeklyStats.mk.injEq]
    refine ⟨?_, ?_, ?_, ?_, ?_, ?_, ?_, ?_⟩ <;>
    · refine (filter_sum_eq_icc_sum (fun s => s.user_id) (fun s => s.date)
        _ u start endd pdb.daily_stats h3 h4).trans ?_
      apply Finset.sum_congr rfl
      intro d _
      exact (pgDayContrib_elim pdb u _ d).symm

/-- SQLite store for the weekly scenario: user 1 has populated days 10
(1800 kcal) and 12 (2100 kcal) inside the 7-day window [8, 14]; the
other five days have no row. -/
def weeklyScenarioSqlite : SQLiteDB :=
  ⟨[], [⟨1, 10, some ⟨1800, 70, 200, 60, 25, 10, 100, 50, 20, 300⟩, 1⟩,
        ⟨1, 12, some ⟨2100, 80, 230, 70, 30, 0, 150, 0, 30, 250⟩, 2⟩]⟩

/-- PostgreSQL store for the same weekly scenario. -/
def weeklyScenarioPg : PGDB :=
  ⟨[], [⟨1, 10, ⟨1800, 70, 200, 60, 25, 10, 100, 50, 20, 300⟩, 1⟩,
        ⟨1, 12, ⟨2100, 80, 230, 70, 30, 0, 150, 0, 30, 250⟩, 2⟩]⟩

/-- Witness for `range_query_eq_sum_of_days`: the spec's scenario — a
7-day window with two populated days (1800 and 2100 kcal) and five empty
days gives weekly calories 3900, and the range query agrees with the
per-day sum. -/
theorem range_query_witness :
    sqliteGetWeeklyStats weeklyScenarioSqlite 1 8 =
      specRangeSumSqlite weeklyScenarioSqlite 1 8 14 ∧
    pgGetWeeklyStats weeklyScenarioPg 1 8 =
      specRangeSumPg weeklyScenarioPg 1 8 14 ∧
    (sqliteGetWeeklyStats weeklyScenarioSqlite 1 8).weekly_calories = 3900 ∧
    (pgGetWeeklyStats weeklyScenarioPg 1 8).weekly_calories = 3900 :=
  ⟨(range_query_eq_sum_of_days weeklyScenarioSqlite weeklyScenarioPg 1 8 14
      (by decide) (by decide) (by decide) (by decide)).1,
   (range_query_eq_sum_of_days weeklyScenarioSqlite weeklyScenarioPg 1 8 14
      (by decide) (by decide) (by decide) (by decide)).2,
   by
    simp [weeklyScenarioSqlite, sqliteGetWeeklyStats, sqliteWeeklyField,
      sqliteRowContrib, List.filter]
    norm_num,
   by
    simp [weeklyScenarioPg, pgGetWeeklyStats, pgWeeklyField, List.filter]
    norm_num⟩
